import Mathlib

/-!
Verification of the Longhorn `BackupController` reconciliation core
(`controller/backup_controller.go` of longhorn-manager, and the
`longhorn/v1beta1` Backup resource types) against its natural-language
specification.

The Go code is shallowly embedded: each external collaborator call made by
`reconcile`, `isResponsibleFor` and `backupCreation` is an oracle field of a
`DS` (datastore) record holding the outcome that call would produce, and the
controller functions are translated into pure Lean functions over those
oracles that additionally log the side effects they issue (remote deletes,
status writes, finalizer removal, re-enqueues, monitor launches).
-/

/-- `metav1.Time`, modelled as a natural-number timestamp; `0` is the zero time. -/
abbrev Time := Nat

/-- `metav1.Time.IsZero`. -/
def Time.IsZero (t : Time) : Bool := t == 0

/-- `t.After(u)`: strictly later than. -/
def Time.After (t u : Time) : Bool := Nat.blt u t

/-- `longhorn.BackupState` is a Go string type; `""` is the unset state. -/
def BackupStateInProgress : String := "InProgress"

/-- `longhorn.BackupStateCompleted`. -/
def BackupStateCompleted : String := "Completed"

/-- `longhorn.BackupStateError`. -/
def BackupStateError : String := "Error"

/-- `longhorn.BackupStateUnknown`. -/
def BackupStateUnknown : String := "Unknown"

/-- `longhorn.SnapshotBackupSpec` (k8s/pkg/apis/longhorn/v1beta1/backup.go). -/
structure SnapshotBackupSpec where
  syncRequestedAt : Time
  snapshotName : String
  labels : List (String × String)
deriving DecidableEq, Repr

/-- `longhorn.SnapshotBackupStatus` (k8s/pkg/apis/longhorn/v1beta1/backup.go). -/
structure SnapshotBackupStatus where
  ownerID : String
  state : String
  url : String
  snapshotName : String
  snapshotCreatedAt : String
  backupCreatedAt : String
  size : String
  labels : List (String × String)
  messages : List (String × String)
  volumeName : String
  volumeSize : String
  volumeCreated : String
  volumeBackingImageName : String
  lastSyncedAt : Time
deriving DecidableEq, Repr

/-- `longhorn.Backup` resource: object metadata (name, labels, deletion
timestamp — `0` meaning no deletion requested) plus spec and status. -/
structure Backup where
  name : String
  deletionTimestamp : Time
  labels : List (String × String)
  spec : SnapshotBackupSpec
  status : SnapshotBackupStatus
deriving DecidableEq, Repr

/-- `longhorn.BackupVolume`: the fields of the aggregate per-volume record read
or written by the backup controller.  `deletionTimestamp` is a pointer in Go
(`nil` = not under deletion), hence `Option`. -/
structure BackupVolume where
  name : String
  deletionTimestamp : Option Time
  specSyncRequestedAt : Time
  statusLastBackupName : String
  statusBackingImageChecksum : String
deriving DecidableEq, Repr

/-- `longhorn.BackupTarget`: the fields read or written by the backup
controller. -/
structure BackupTarget where
  specBackupTargetURL : String
  specSyncRequestedAt : Time
deriving DecidableEq, Repr

/-- `longhorn.Volume`: the fields read by `backupCreation`. -/
structure Volume where
  name : String
  specBackingImage : String
deriving DecidableEq, Repr

/-- `longhorn.BackingImage`: the field read by `backupCreation`. -/
structure BackingImage where
  statusChecksum : String
deriving DecidableEq, Repr

/-- The remote backup-target client produced by `getBackupTargetClient`
(URL field; credentials carry no decision logic). -/
structure TargetClient where
  url : String
deriving DecidableEq, Repr

/-- `backupstore.BackupInfo` as consumed by the sync branch of `reconcile`. -/
structure BackupInfo where
  url : String
  snapshotName : String
  snapshotCreated : String
  created : String
  size : String
  labels : List (String × String)
  messages : List (String × String)
  volumeName : String
  volumeSize : String
  volumeCreated : String
  volumeBackingImageName : String
deriving DecidableEq, Repr

/-- A per-snapshot transfer-progress entry of an engine
(`longhorn.BackupStatus` in `engine.Status.BackupStatus`).
Modelled from the spec: `listTransferStatus(volumeName) ->
[ {snapshotID, progress 0-100, error string} ]`; the backup controller reads
exactly the fields `SnapshotName`, `Progress` and `Error`. -/
structure BackupStatusEntry where
  snapshotName : String
  progress : Nat
  error : String
deriving DecidableEq, Repr

/-- A `longhorn.Engine` as read by the progress-monitor loop: only its
`Status.BackupStatus` list is consulted. -/
structure Engine where
  statusBackupStatus : List BackupStatusEntry
deriving DecidableEq, Repr

/-- Error taxonomy of the collaborator calls, following the predicates the
controller applies: `apierrors.IsNotFound`, `apierrors.IsConflict`, the
`"in progress"` substring test on remote inspect errors, and anything else. -/
inductive DSError where
  | notFound
  | conflict
  | inProgress
  | other (code : Nat)
deriving DecidableEq, Repr

deriving instance DecidableEq for Except

/-- `types.LonghornLabelBackupVolume`: the label key under which a Backup
carries its owning volume's name.  Modelled from the spec: "associated with a
BackupVolume via a label reference (its owning volume's name)". -/
def LonghornLabelBackupVolume : String := "backup-volume"

/-- `backupstore.EncodeBackupURL(backupName, volumeName, endpointURL)`.
Modelled from the spec: the remote target client's
`encodeURL(name, volumeName, endpointURL) -> URL` operation; an opaque
deterministic encoding. -/
def EncodeBackupURL (backupName volumeName endpointURL : String) : String :=
  endpointURL ++ "?volume=" ++ volumeName ++ "&backup=" ++ backupName

/-- Oracle for every external call `reconcile` and `isResponsibleFor` can
issue: each field holds the outcome the corresponding collaborator call would
return during this invocation. -/
structure DS where
  /-- `ds.GetBackup(backupName)`. -/
  getBackup : Except DSError Backup
  /-- `ds.GetSettingValueExisted(SettingNameDefaultEngineImage)`. -/
  getSettingDefaultEngineImage : Except DSError String
  /-- error injected into `ds.ListReadyNodesWithReadyEngineImage`, if any. -/
  listReadyNodesErr : Option DSError
  /-- result of `ds.ListReadyNodesWithReadyEngineImage(defaultEngineImage)`:
  the nodes that currently offer the default transfer capability. -/
  readyNodesWithReadyEI : List String
  /-- `isControllerResponsibleFor(controllerID, ds, name, "", ownerID)`.
  Modelled from the spec: "this replica would be the canonical owner by the
  cluster's standard tie-break rule" — an opaque boolean decided elsewhere. -/
  tieBreakResponsible : Bool
  /-- error injected into `ds.CheckEngineImageReadiness` per queried node. -/
  checkEngineImageReadinessErr : String → Option DSError
  /-- outcome of the ownership-claim `ds.UpdateBackupStatus(backup)`: on
  success the store returns the persisted object. -/
  updateBackupStatusClaim : Except DSError Backup
  /-- `ds.GetBackupTargetRO(DefaultBackupTargetName)`. -/
  getBackupTargetRO : Except DSError BackupTarget
  /-- `ds.GetBackupVolume(backupVolumeName)`. -/
  getBackupVolume : Except DSError BackupVolume
  /-- `getBackupTargetClient(ds, backupTarget)`. -/
  getBackupTargetClient : Except DSError TargetClient
  /-- `backupTargetClient.DeleteBackup(backupURL)`: `none` = success. -/
  deleteBackup : Option DSError
  /-- `ds.RemoveFinalizerForBackup(backup)`. -/
  removeFinalizerForBackup : Except DSError Unit
  /-- `ds.GetVolumeCurrentEngine(backupVolumeName)` (the engine value itself
  is only passed on to `GetClientForEngine`). -/
  getVolumeCurrentEngine : Except DSError Unit
  /-- `GetClientForEngine(engine, collection, image)`. -/
  getClientForEngine : Except DSError Unit
  /-- `ds.GetVolume(volumeName)` inside `backupCreation`. -/
  getVolume : Except DSError Volume
  /-- `ds.GetBackingImage(biName)` inside `backupCreation`. -/
  getBackingImage : Except DSError BackingImage
  /-- `ds.GetBackupVolumeRO(volumeName)` inside `backupCreation`. -/
  getBackupVolumeRO : Except DSError BackupVolume
  /-- `backupTargetClient.InspectBackupConfig(backupURL)`: `ok none` models a
  `nil` BackupInfo with `nil` error. -/
  inspectBackupConfig : Except DSError (Option BackupInfo)
  /-- outcome of the deferred `ds.UpdateBackupStatus(backup)`: `none` =
  success. -/
  updateBackupStatusDeferred : Option DSError
  /-- `time.Now().UTC()` at this invocation. -/
  now : Time

/-- Side effects issued by one `reconcile` invocation. -/
structure RecEffects where
  /-- ownership-claim `UpdateBackupStatus` calls. -/
  claimWrites : Nat := 0
  /-- deferred-step `UpdateBackupStatus` calls. -/
  deferredWrites : Nat := 0
  /-- URLs passed to `backupTargetClient.DeleteBackup`. -/
  remoteDeletes : List String := []
  /-- `RemoveFinalizerForBackup` calls. -/
  finalizerRemoveCalls : Nat := 0
  /-- `UpdateBackupVolume` calls (bumping `Spec.SyncRequestedAt`). -/
  volumeSpecUpdates : Nat := 0
  /-- `InspectBackupConfig` remote queries. -/
  inspectCalls : Nat := 0
  /-- `enqueueBackup` re-enqueues issued on deferred-write conflict. -/
  enqueues : Nat := 0
  /-- progress-monitor goroutines launched by `backupCreation`. -/
  monitorLaunches : Nat := 0
deriving DecidableEq, Repr

/-- Result of one `reconcile` invocation: the returned error value, the
effects issued, and — when the deferred status-persistence step ran its
comparison — the pair (snapshot status, end-of-invocation status) it
compared. -/
structure RecResult where
  ret : Except DSError Unit
  eff : RecEffects := {}
  deferCompare : Option (SnapshotBackupStatus × SnapshotBackupStatus) := none
deriving DecidableEq, Repr

/-- Intermediate result of the non-deletion body (before the deferred step):
return value, the (possibly mutated) backup, effects so far. -/
structure BodyResult where
  ret : Except DSError Unit
  backup : Backup
  eff : RecEffects := {}
deriving DecidableEq, Repr

/-- `ds.CheckEngineImageReadiness(defaultEngineImage, nodeID)`.
Modelled from the spec: a node offers the default transfer capability iff it
is among the ready nodes carrying the ready default engine image. -/
def checkEngineImageReadiness (ds : DS) (nodeID : String) : Except DSError Bool :=
  match ds.checkEngineImageReadinessErr nodeID with
  | some e => .error e
  | none => .ok (ds.readyNodesWithReadyEI.contains nodeID)

/-- `BackupController.isResponsibleFor` (backup_controller.go). -/
def isResponsibleFor (ds : DS) (controllerID : String) (b : Backup)
    (_defaultEngineImage : String) : Except DSError Bool :=
  let isResponsible := ds.tieBreakResponsible
  match ds.listReadyNodesErr with
  | some e => .error e
  | none =>
    if ds.readyNodesWithReadyEI.length = 0 then .ok false
    else
      match checkEngineImageReadiness ds b.status.ownerID with
      | .error e => .error e
      | .ok currentOwnerEngineAvailable =>
        match checkEngineImageReadiness ds controllerID with
        | .error e => .error e
        | .ok currentNodeEngineAvailable =>
          let isPreferredOwner := currentNodeEngineAvailable && isResponsible
          let continueToBeOwner :=
            currentNodeEngineAvailable && (controllerID == b.status.ownerID)
          let requiresNewOwner :=
            currentNodeEngineAvailable && !currentOwnerEngineAvailable
          .ok (isPreferredOwner || continueToBeOwner || requiresNewOwner)

/-- `BackupController.getBackupVolumeName`: look up the owning volume's name
from the backup's labels; `none` models the `"cannot find the backup volume
label"` error (which `types.ErrorIsNotFound` classifies as not-found). -/
def getBackupVolumeName (b : Backup) : Option String :=
  match b.labels.find? (fun p => p.fst == LonghornLabelBackupVolume) with
  | some p => some p.snd
  | none => none

/-- Set the lifecycle state of a backup's status block. -/
def setState (b : Backup) (s : String) : Backup :=
  { b with status := { b.status with state := s } }

/-- The sync branch's copy of remote metadata into observed state
(`reconcile`, lines 371–383). -/
def applyBackupInfo (b : Backup) (info : BackupInfo) (syncTime : Time) : Backup :=
  { b with status :=
    { b.status with
        state := BackupStateCompleted
        url := info.url
        snapshotName := info.snapshotName
        snapshotCreatedAt := info.snapshotCreated
        backupCreatedAt := info.created
        size := info.size
        labels := info.labels
        messages := info.messages
        volumeName := info.volumeName
        volumeSize := info.volumeSize
        volumeCreated := info.volumeCreated
        volumeBackingImageName := info.volumeBackingImageName
        lastSyncedAt := syncTime } }

/-- The deferred status-persistence step of `reconcile` (lines 306–317):
skipped when the invocation returns an error; otherwise compares the snapshot
taken at line 305 with the end-of-invocation status, writes only on
inequality, and re-enqueues on an optimistic-concurrency conflict (any other
write error is logged and dropped). -/
def runDeferred (ds : DS) (pre post : SnapshotBackupStatus)
    (ret : Except DSError Unit) (eff : RecEffects) : RecResult :=
  match ret with
  | .error e => { ret := .error e, eff := eff }
  | .ok _ =>
    if pre = post then
      { ret := .ok (), eff := eff, deferCompare := some (pre, post) }
    else
      let eff2 := { eff with deferredWrites := eff.deferredWrites + 1 }
      match ds.updateBackupStatusDeferred with
      | some e =>
        if e = .conflict then
          { ret := .ok (), eff := { eff2 with enqueues := eff2.enqueues + 1 },
            deferCompare := some (pre, post) }
        else { ret := .ok (), eff := eff2, deferCompare := some (pre, post) }
      | none => { ret := .ok (), eff := eff2, deferCompare := some (pre, post) }

/-- The synchronous part of `BackupController.backupCreation` (lines 449–569):
volume fetch, backing-image checksum validation, setting the state to
`InProgress` and launching the monitor goroutine. -/
def backupCreationSync (ds : DS) (b : Backup) : BodyResult :=
  match ds.getVolume with
  | .error e => { ret := .error e, backup := b }
  | .ok vol =>
    let launch : BodyResult :=
      { ret := .ok (), backup := setState b BackupStateInProgress,
        eff := { monitorLaunches := 1 } }
    if vol.specBackingImage != "" then
      match ds.getBackingImage with
      | .error e => { ret := .error e, backup := b }
      | .ok bi =>
        match ds.getBackupVolumeRO with
        | .error e =>
          if e != .notFound then { ret := .error e, backup := b }
          else launch
        | .ok bv =>
          if bv.statusBackingImageChecksum != "" && bi.statusChecksum != ""
              && bv.statusBackingImageChecksum != bi.statusChecksum then
            { ret := .error (.other 1), backup := b }
          else launch
    else launch

/-- The creation branch of `reconcile` (lines 320–343): build the target and
engine clients, then run `backupCreation`. -/
def creationBranch (ds : DS) (b : Backup) : BodyResult :=
  match ds.getBackupTargetClient with
  | .error _ => { ret := .ok (), backup := b }
  | .ok _ =>
    match ds.getVolumeCurrentEngine with
    | .error e => { ret := .error e, backup := b }
    | .ok _ =>
      match ds.getClientForEngine with
      | .error e => { ret := .error e, backup := b }
      | .ok _ => backupCreationSync ds b

/-- The sync branch of `reconcile` (lines 351–384): build the target client,
inspect the remote backup config (every inspect failure and a `nil` result are
swallowed), and on success copy the metadata into observed state. -/
def syncBranch (ds : DS) (b : Backup) : BodyResult :=
  match ds.getBackupTargetClient with
  | .error _ => { ret := .ok (), backup := b }
  | .ok _ =>
    match ds.inspectBackupConfig with
    | .error _ => { ret := .ok (), backup := b, eff := { inspectCalls := 1 } }
    | .ok none => { ret := .ok (), backup := b, eff := { inspectCalls := 1 } }
    | .ok (some info) =>
      { ret := .ok (), backup := applyBackupInfo b info ds.now,
        eff := { inspectCalls := 1 } }

/-- The non-deletion body of `reconcile` (lines 319–384, without the deferred
step): creation branch, sync-skip check, sync branch. -/
def nonDeletionBody (ds : DS) (b : Backup) : BodyResult :=
  if b.spec.snapshotName != "" && b.status.state == "" then
    creationBranch ds b
  else if !(Time.IsZero b.status.lastSyncedAt)
      && !(Time.After b.spec.syncRequestedAt b.status.lastSyncedAt) then
    { ret := .ok (), backup := b }
  else syncBranch ds b

/-- The non-deletion phase of `reconcile` (lines 304–384): snapshot the status
(`existingBackup := backup.DeepCopy()`), run the body, then the deferred
status-persistence step. -/
def nonDeletionPhase (ds : DS) (b : Backup) : RecResult :=
  let r := nonDeletionBody ds b
  runDeferred ds b.status r.backup.status r.ret r.eff

/-- Tail of the deletion branch (lines 291–301): bump the owning volume's
sync-requested timestamp when this backup was its last recorded backup (any
error swallowed), then remove the finalizer, returning that call's outcome. -/
def deletionFinish (ds : DS) (b : Backup) (bv : Option BackupVolume)
    (eff : RecEffects) : RecResult :=
  let eff2 :=
    match bv with
    | some v =>
      if v.statusLastBackupName == b.name then
        { eff with volumeSpecUpdates := eff.volumeSpecUpdates + 1 }
      else eff
    | none => eff
  { ret := ds.removeFinalizerForBackup,
    eff := { eff2 with finalizerRemoveCalls := eff2.finalizerRemoveCalls + 1 } }

/-- Deletion branch after the backup-volume fetch (lines 275–301): issue the
remote delete when the target URL is set and the volume record exists and is
not itself under deletion; a delete failure is returned (finalizer kept). -/
def deletionAfterVolume (ds : DS) (b : Backup) (t : BackupTarget)
    (volName : String) (bv : Option BackupVolume) : RecResult :=
  let guard : Bool :=
    t.specBackupTargetURL != ""
      && (match bv with
          | some v => v.deletionTimestamp.isNone
          | none => false)
  if guard then
    match ds.getBackupTargetClient with
    | .error _ => { ret := .ok () }
    | .ok client =>
      let url := EncodeBackupURL b.name volName client.url
      match ds.deleteBackup with
      | some e => { ret := .error e, eff := { remoteDeletes := [url] } }
      | none => deletionFinish ds b bv { remoteDeletes := [url] }
  else deletionFinish ds b bv {}

/-- The deletion branch of `reconcile` (lines 269–302). -/
def deletionBranch (ds : DS) (b : Backup) (t : BackupTarget)
    (volName : String) : RecResult :=
  match ds.getBackupVolume with
  | .error e =>
    if e != .notFound then { ret := .error e }
    else deletionAfterVolume ds b t volName none
  | .ok bv => deletionAfterVolume ds b t volName (some bv)

/-- `reconcile` from the backup-target fetch on (lines 248–384), given the
backup as it stands after the ownership claim. -/
def targetStage (ds : DS) (b : Backup) : RecResult :=
  match ds.getBackupTargetRO with
  | .error e => if e != .notFound then { ret := .error e } else { ret := .ok () }
  | .ok t =>
    match getBackupVolumeName b with
    | none => { ret := .ok () }
    | some volName =>
      if !(Time.IsZero b.deletionTimestamp) then deletionBranch ds b t volName
      else nonDeletionPhase ds b

/-- Add `n` ownership-claim writes to a result's effect log. -/
def addClaimWrites (n : Nat) (r : RecResult) : RecResult :=
  { r with eff := { r.eff with claimWrites := r.eff.claimWrites + n } }

/-- The ownership-claim step of `reconcile` (lines 234–244): write the owner
identifier only when it differs; a conflict on this write aborts the
invocation successfully, any other error is returned. -/
def claimStage (ds : DS) (cid : String) (b : Backup) : RecResult :=
  if b.status.ownerID == cid then targetStage ds b
  else
    match ds.updateBackupStatusClaim with
    | .error e =>
      if e = .conflict then { ret := .ok (), eff := { claimWrites := 1 } }
      else { ret := .error e, eff := { claimWrites := 1 } }
    | .ok b1 => addClaimWrites 1 (targetStage ds b1)

/-- `BackupController.reconcile` (backup_controller.go, lines 212–385). -/
def reconcile (ds : DS) (cid : String) : RecResult :=
  match ds.getBackup with
  | .error e => if e != .notFound then { ret := .error e } else { ret := .ok () }
  | .ok b =>
    match ds.getSettingDefaultEngineImage with
    | .error e => { ret := .error e }
    | .ok img =>
      match isResponsibleFor ds cid b img with
      | .error _ => { ret := .ok () }
      | .ok resp =>
        if resp then claimStage ds cid b else { ret := .ok () }

/-- Oracle for the external calls the detached progress-monitor goroutine of
`backupCreation` can issue (lines 478–567). -/
structure MonitorEnv where
  /-- error from `engineClient.SnapshotBackup(...)`, if any. -/
  snapshotBackupErr : Option DSError
  /-- successive outcomes of `ds.ListVolumeEngines(volume.Name)`, one per
  poll iteration; the loop sleeps 2 seconds between iterations, so only a
  finite prefix of the infinite poll sequence is observed. -/
  polls : List (Except DSError (List Engine))
  /-- `ds.GetBackupVolume(volumeName)` on the completion path. -/
  getBackupVolume : Except DSError BackupVolume
  /-- `ds.GetBackupTarget(DefaultBackupTargetName)` on the completion path. -/
  getBackupTarget : Except DSError BackupTarget
  /-- the fresh `ds.GetBackup(backup.Name)` in the deferred write-back. -/
  refetch : Except DSError Backup
  /-- outcome of the deferred `ds.UpdateBackupStatus`: `none` = success. -/
  updateStatusErr : Option DSError

/-- Sibling wake-up writes issued on the completion path. -/
structure WakeEffects where
  /-- `UpdateBackupVolume` calls bumping `Spec.SyncRequestedAt`. -/
  volumeUpdates : Nat := 0
  /-- `UpdateBackupTarget` calls bumping `Spec.SyncRequestedAt`. -/
  targetUpdates : Nat := 0
deriving DecidableEq, Repr

/-- Result of the monitor's deferred write-back (lines 480–496): the status
value passed to `UpdateBackupStatus` if the write was issued, and whether a
write error was logged (a conflict is dropped without logging). -/
structure WriteBackResult where
  written : Option SnapshotBackupStatus := none
  loggedUpdateError : Bool := false
deriving DecidableEq, Repr

/-- The monitor goroutine's entry-selection scan (lines 513–522): `bks` starts
as `&longhorn.BackupStatus{}` — a non-nil pointer to the zero entry, modelled
as `some` of the zero entry — and is overwritten by the first entry of each
engine whose `SnapshotName` matches. -/
def findBackupStatusEntry (snap : String) (engines : List Engine) :
    Option BackupStatusEntry :=
  engines.foldl
    (fun acc e =>
      match e.statusBackupStatus.find? (fun s => s.snapshotName == snap) with
      | some s => some s
      | none => acc)
    (some { snapshotName := "", progress := 0, error := "" })

/-- One decision of the polling loop body (lines 505–537) about a fetched
engine list: stop with a state, or sleep 2 seconds and poll again. -/
inductive PollDecision where
  | stop (state : String)
  | sleepAndRetry
deriving DecidableEq, Repr

/-- Classification a single poll iteration applies to its engine list. -/
def pollDecision (snap : String) (engines : List Engine) : PollDecision :=
  match findBackupStatusEntry snap engines with
  | none => .stop BackupStateUnknown
  | some bks =>
    if bks.error != "" then .stop BackupStateError
    else if bks.progress != 100 then .sleepAndRetry
    else .stop BackupStateCompleted

/-- Sibling wake-up writes on the completion path (lines 545–564): bump the
backup volume's sync-requested timestamp if the volume record exists, else —
on not-found — the backup target's; every error is swallowed. -/
def completedWakes (env : MonitorEnv) : WakeEffects :=
  match env.getBackupVolume with
  | .ok _ => { volumeUpdates := 1 }
  | .error e =>
    if e = .notFound then
      match env.getBackupTarget with
      | .error _ => {}
      | .ok _ => { targetUpdates := 1 }
    else {}

/-- How the polling loop ended: a `return` with a final `state` value, or the
observed poll prefix ran out with the loop still going. -/
inductive LoopExit where
  | stopped (state : String) (wakes : WakeEffects)
  | fuelOut
deriving DecidableEq, Repr

/-- The monitor polling loop (lines 505–566). -/
def monitorLoop (env : MonitorEnv) (snap : String) :
    List (Except DSError (List Engine)) → LoopExit
  | [] => .fuelOut
  | poll :: rest =>
    match poll with
    | .error _ => .stopped BackupStateUnknown {}
    | .ok engines =>
      match pollDecision snap engines with
      | .stop st =>
        if st = BackupStateCompleted then .stopped st (completedWakes env)
        else .stopped st {}
      | .sleepAndRetry => monitorLoop env snap rest

/-- The monitor's deferred write-back (lines 480–496): re-fetch the backup,
apply only the `State` field, write only when the result differs from the
fetched status, drop (without logging) a conflict from that write. -/
def monitorWriteBack (refetch : Except DSError Backup) (st : String)
    (updErr : Option DSError) : WriteBackResult :=
  match refetch with
  | .error _ => {}
  | .ok fresh =>
    let newStatus := { fresh.status with state := st }
    if fresh.status = newStatus then {}
    else
      { written := some newStatus,
        loggedUpdateError := updErr.isSome && updErr != some .conflict }

/-- Outcome of the whole monitor goroutine: every `return` path carries the
final state, the wake-up writes, and the deferred write-back's result; if the
observed poll prefix is exhausted the task is still polling and the deferred
write-back has not run. -/
inductive TaskOutcome where
  | exited (finalState : String) (wakes : WakeEffects) (wb : WriteBackResult)
  | stillPolling
deriving DecidableEq, Repr

/-- The monitor goroutine launched by `backupCreation` (lines 478–567):
`state` starts at `InProgress`; a `SnapshotBackup` failure exits with `Error`;
otherwise the polling loop runs; the deferred write-back runs on every exit. -/
def backupMonitorTask (env : MonitorEnv) (snap : String) : TaskOutcome :=
  match env.snapshotBackupErr with
  | some _ =>
    .exited BackupStateError {}
      (monitorWriteBack env.refetch BackupStateError env.updateStatusErr)
  | none =>
    match monitorLoop env snap env.polls with
    | .fuelOut => .stillPolling
    | .stopped st wakes =>
      .exited st wakes (monitorWriteBack env.refetch st env.updateStatusErr)

/-! ### Concrete scenario instances used by counterexamples and witnesses -/

/-- The all-empty observed-state block. -/
def status0 : SnapshotBackupStatus :=
  { ownerID := "", state := "", url := "", snapshotName := "",
    snapshotCreatedAt := "", backupCreatedAt := "", size := "", labels := [],
    messages := [], volumeName := "", volumeSize := "", volumeCreated := "",
    volumeBackingImageName := "", lastSyncedAt := 0 }

/-- The all-empty desired-state block. -/
def spec0 : SnapshotBackupSpec :=
  { syncRequestedAt := 0, snapshotName := "", labels := [] }

/-- A default backup target with no URL configured. -/
def target0 : BackupTarget := { specBackupTargetURL := "", specSyncRequestedAt := 0 }

/-- A plain backup owned by node `n1`, labelled with volume `v1`. -/
def backup0 : Backup :=
  { name := "b0", deletionTimestamp := 0,
    labels := [(LonghornLabelBackupVolume, "v1")],
    spec := spec0, status := { status0 with ownerID := "n1" } }

/-- Baseline oracle: node `n1` carries the ready default engine image, every
store call succeeds benignly, nothing is configured remotely. -/
def ds0 : DS :=
  { getBackup := .error .notFound
    getSettingDefaultEngineImage := .ok "ei-default"
    listReadyNodesErr := none
    readyNodesWithReadyEI := ["n1"]
    tieBreakResponsible := true
    checkEngineImageReadinessErr := fun _ => none
    updateBackupStatusClaim := .error .conflict
    getBackupTargetRO := .ok target0
    getBackupVolume := .error .notFound
    getBackupTargetClient := .ok { url := "s3://bucket" }
    deleteBackup := none
    removeFinalizerForBackup := .ok ()
    getVolumeCurrentEngine := .ok ()
    getClientForEngine := .ok ()
    getVolume := .ok { name := "v1", specBackingImage := "" }
    getBackingImage := .ok { statusChecksum := "" }
    getBackupVolumeRO := .error .notFound
    inspectBackupConfig := .ok none
    updateBackupStatusDeferred := none
    now := 100 }

/-- A backup under deletion that completed earlier (it has a remote URL). -/
def backupDel : Backup :=
  { backup0 with
    name := "b1", deletionTimestamp := 7,
    status := { status0 with ownerID := "n1", state := BackupStateCompleted,
                             url := "s3://bucket?volume=v1&backup=b1" } }

/-- A backup under deletion that never acquired a remote URL
(`Status.URL = ""`). -/
def backupDelNoURL : Backup :=
  { backupDel with
    status := { status0 with ownerID := "n1", state := BackupStateInProgress } }

/-- A live backup-volume record whose last recorded backup is `b1`. -/
def bvol1 : BackupVolume :=
  { name := "v1", deletionTimestamp := none, specSyncRequestedAt := 0,
    statusLastBackupName := "b1", statusBackingImageChecksum := "" }

/-- Deletion scenario in which the remote delete is issued and fails. -/
def dsC2 : DS :=
  { ds0 with
    getBackup := .ok backupDel
    getBackupTargetRO := .ok { target0 with specBackupTargetURL := "s3://bucket" }
    getBackupVolume := .ok bvol1
    deleteBackup := some (.other 3) }

/-- Deletion scenario for a backup with `Status.URL = ""` while the default
backup target does have a URL and the volume record is live. -/
def dsC3 : DS :=
  { ds0 with
    getBackup := .ok backupDelNoURL
    getBackupTargetRO := .ok { target0 with specBackupTargetURL := "s3://bucket" }
    getBackupVolume := .ok bvol1 }

/-- Deletion scenario with no backup-target URL configured. -/
def dsC3w : DS :=
  { ds0 with
    getBackup := .ok backupDelNoURL
    getBackupVolume := .ok bvol1 }

/-- A backup already synced (`lastSyncedAt = 5` at or after
`syncRequestedAt = 3`) whose recorded owner is a node other than `n1`. -/
def backupSynced : Backup :=
  { backup0 with
    name := "b2",
    spec := { spec0 with syncRequestedAt := 3, snapshotName := "snap-1" },
    status := { status0 with ownerID := "n-old", state := BackupStateCompleted,
                             lastSyncedAt := 5 } }

/-- `backupSynced` as returned by the store after the ownership-claim write of
controller `n1`. -/
def backupSyncedClaimed : Backup :=
  { backupSynced with status := { backupSynced.status with ownerID := "n1" } }

/-- Scenario: controller `n1` claims `backupSynced` and then takes the
sync-skip path. -/
def dsC4 : DS :=
  { ds0 with
    getBackup := .ok backupSynced
    updateBackupStatusClaim := .ok backupSyncedClaimed }

/-- Remote metadata for the sync branch. -/
def info1 : BackupInfo :=
  { url := "s3://bucket?volume=v1&backup=b3", snapshotName := "snap-3",
    snapshotCreated := "t1", created := "t2", size := "42", labels := [],
    messages := [], volumeName := "v1", volumeSize := "100",
    volumeCreated := "t0", volumeBackingImageName := "" }

/-- A backup owned by `n1` whose sync is requested after its last sync. -/
def backupNeedSync : Backup :=
  { backup0 with
    name := "b3",
    spec := { spec0 with syncRequestedAt := 9, snapshotName := "snap-3" },
    status := { status0 with ownerID := "n1", state := BackupStateCompleted,
                             lastSyncedAt := 5 } }

/-- Scenario: the sync branch succeeds and mutates the status, and the
deferred status write hits an optimistic-concurrency conflict. -/
def dsC4w : DS :=
  { ds0 with
    getBackup := .ok backupNeedSync
    inspectBackupConfig := .ok (some info1)
    updateBackupStatusDeferred := some .conflict }

/-- Scenario: no node carries the ready default engine image. -/
def dsC6 : DS :=
  { ds0 with getBackup := .ok backup0, readyNodesWithReadyEI := [] }

/-- Scenario: `backupSynced` fetched, claim write hits a conflict. -/
def dsC7 : DS :=
  { ds0 with getBackup := .ok backupSynced }

/-- A backup fetched fresh by the monitor's write-back, still `InProgress`. -/
def backupInProg : Backup :=
  { backup0 with
    spec := { spec0 with snapshotName := "snap-1" },
    status := { status0 with ownerID := "n1", state := BackupStateInProgress } }

/-- Monitor scenario: the transfer start call fails, the write-back's fresh
fetch succeeds and the status write hits a conflict. -/
def envC8 : MonitorEnv :=
  { snapshotBackupErr := some (.other 2)
    polls := []
    getBackupVolume := .error .notFound
    getBackupTarget := .ok target0
    refetch := .ok backupInProg
    updateStatusErr := some .conflict }

/-- Monitor scenario: two successive engine lists, neither containing an
entry for the requested snapshot `snap-1`. -/
def envC1 : MonitorEnv :=
  { snapshotBackupErr := none
    polls := [.ok [{ statusBackupStatus := [] }],
              .ok [{ statusBackupStatus :=
                      [{ snapshotName := "other-snap", progress := 100,
                         error := "" }] }]]
    getBackupVolume := .error .notFound
    getBackupTarget := .ok target0
    refetch := .ok backupInProg
    updateStatusErr := none }

/-- `backupSynced`, but already owned by controller `n1`. -/
def backupSynced9 : Backup :=
  { backupSynced with status := { backupSynced.status with ownerID := "n1" } }

/-- Scenario: already-synced backup owned by `n1` reaching the sync-skip. -/
def dsC9 : DS :=
  { ds0 with getBackup := .ok backupSynced9 }

/-- Scenario: the responsibility check itself fails. -/
def dsC10 : DS :=
  { ds0 with getBackup := .ok backup0, listReadyNodesErr := some (.other 7) }

/-! ### Helper lemmas: per-stage characterizations of `reconcile` -/

/-- The deferred step leaves every effect counter other than
`deferredWrites`/`enqueues` untouched. -/
theorem runDeferred_frame (ds : DS) (pre post : SnapshotBackupStatus)
    (ret : Except DSError Unit) (eff : RecEffects) :
    (runDeferred ds pre post ret eff).eff.claimWrites = eff.claimWrites
  ∧ (runDeferred ds pre post ret eff).eff.remoteDeletes = eff.remoteDeletes
  ∧ (runDeferred ds pre post ret eff).eff.finalizerRemoveCalls
      = eff.finalizerRemoveCalls
  ∧ (runDeferred ds pre post ret eff).eff.inspectCalls = eff.inspectCalls
  ∧ (runDeferred ds pre post ret eff).eff.volumeSpecUpdates
      = eff.volumeSpecUpdates
  ∧ (runDeferred ds pre post ret eff).eff.monitorLaunches
      = eff.monitorLaunches := by
  unfold runDeferred
  repeat' split
  all_goals simp

/-- Characterization of the deferred step when its comparison ran. -/
theorem runDeferred_spec (ds : DS) (pre post p q : SnapshotBackupStatus)
    (ret : Except DSError Unit) (eff : RecEffects)
    (hd : eff.deferredWrites = 0) (he : eff.enqueues = 0)
    (h : (runDeferred ds pre post ret eff).deferCompare = some (p, q)) :
    p = pre ∧ q = post ∧ (runDeferred ds pre post ret eff).ret = .ok ()
  ∧ (runDeferred ds pre post ret eff).eff.deferredWrites
      = (if p = q then 0 else 1)
  ∧ (p ≠ q → ds.updateBackupStatusDeferred = some .conflict →
      (runDeferred ds pre post ret eff).eff.enqueues = 1) := by
  cases ret with
  | error e => simp [runDeferred] at h
  | ok u =>
    by_cases hpq : pre = post
    · subst hpq
      simp [runDeferred] at h
      obtain ⟨h1, h2⟩ := h
      subst h1
      subst h2
      simp [runDeferred, hd]
    · cases hupd : ds.updateBackupStatusDeferred with
      | none =>
        simp [runDeferred, hpq, hupd] at h
        obtain ⟨h1, h2⟩ := h
        subst h1
        subst h2
        simp [runDeferred, hpq, hupd, hd]
      | some e =>
        by_cases hc : e = .conflict
        · subst hc
          simp [runDeferred, hpq, hupd] at h
          obtain ⟨h1, h2⟩ := h
          subst h1
          subst h2
          simp [runDeferred, hpq, hupd, hd, he]
        · simp [runDeferred, hpq, hupd, hc] at h
          obtain ⟨h1, h2⟩ := h
          subst h1
          subst h2
          simp [runDeferred, hpq, hupd, hc, hd]

/-- The non-deletion body issues no claim writes, deferred writes, enqueues,
remote deletes, finalizer removals or volume-spec updates. -/
theorem nonDeletionBody_eff (ds : DS) (b : Backup) :
    (nonDeletionBody ds b).eff.claimWrites = 0
  ∧ (nonDeletionBody ds b).eff.deferredWrites = 0
  ∧ (nonDeletionBody ds b).eff.enqueues = 0
  ∧ (nonDeletionBody ds b).eff.remoteDeletes = []
  ∧ (nonDeletionBody ds b).eff.finalizerRemoveCalls = 0
  ∧ (nonDeletionBody ds b).eff.volumeSpecUpdates = 0 := by
  unfold nonDeletionBody creationBranch backupCreationSync syncBranch
  repeat' split
  all_goals simp

/-- The non-deletion phase issues no claim writes, remote deletes, finalizer
removals or volume-spec updates. -/
theorem nonDeletionPhase_eff (ds : DS) (b : Backup) :
    (nonDeletionPhase ds b).eff.claimWrites = 0
  ∧ (nonDeletionPhase ds b).eff.remoteDeletes = []
  ∧ (nonDeletionPhase ds b).eff.finalizerRemoveCalls = 0
  ∧ (nonDeletionPhase ds b).eff.volumeSpecUpdates = 0 := by
  unfold nonDeletionPhase
  have hf := runDeferred_frame ds b.status (nonDeletionBody ds b).backup.status
    (nonDeletionBody ds b).ret (nonDeletionBody ds b).eff
  have hb := nonDeletionBody_eff ds b
  exact ⟨by rw [hf.1, hb.1], by rw [hf.2.1, hb.2.2.2.1],
         by rw [hf.2.2.1, hb.2.2.2.2.1], by rw [hf.2.2.2.2.1, hb.2.2.2.2.2]⟩

/-- When the non-deletion phase records a deferred comparison, its first
component is the phase-entry snapshot, the invocation succeeds, and the
deferred write/enqueue counts are determined by the comparison. -/
theorem nonDeletionPhase_defer (ds : DS) (b : Backup)
    (p q : SnapshotBackupStatus)
    (h : (nonDeletionPhase ds b).deferCompare = some (p, q)) :
    p = b.status ∧ (nonDeletionPhase ds b).ret = .ok ()
  ∧ (nonDeletionPhase ds b).eff.deferredWrites = (if p = q then 0 else 1)
  ∧ (p ≠ q → ds.updateBackupStatusDeferred = some .conflict →
      (nonDeletionPhase ds b).eff.enqueues = 1) := by
  unfold nonDeletionPhase at h ⊢
  have hb := nonDeletionBody_eff ds b
  have hs := runDeferred_spec ds b.status (nonDeletionBody ds b).backup.status
    p q (nonDeletionBody ds b).ret (nonDeletionBody ds b).eff
    hb.2.1 hb.2.2.1 h
  exact ⟨hs.1, hs.2.2.1, hs.2.2.2.1, hs.2.2.2.2⟩

/-- The deletion branch records no deferred comparison and issues no claim
writes, deferred writes, enqueues or inspect calls. -/
theorem deletionBranch_eff (ds : DS) (b : Backup) (t : BackupTarget)
    (v : String) :
    (deletionBranch ds b t v).deferCompare = none
  ∧ (deletionBranch ds b t v).eff.claimWrites = 0
  ∧ (deletionBranch ds b t v).eff.deferredWrites = 0
  ∧ (deletionBranch ds b t v).eff.enqueues = 0
  ∧ (deletionBranch ds b t v).eff.inspectCalls = 0 := by
  unfold deletionBranch deletionAfterVolume deletionFinish
  repeat' split
  all_goals try simp_all
  all_goals repeat' split
  all_goals simp_all

/-- In the deletion branch, a failing remote delete makes the invocation
return that error with the finalizer kept, and the finalizer is removed only
when no remote delete was issued or the delete succeeded. -/
theorem deletionBranch_delete_failure (ds : DS) (b : Backup) (t : BackupTarget)
    (v : String) :
    ((deletionBranch ds b t v).eff.finalizerRemoveCalls ≠ 0 →
      (deletionBranch ds b t v).eff.remoteDeletes = [] ∨ ds.deleteBackup = none)
  ∧ (∀ e, ds.deleteBackup = some e →
      (deletionBranch ds b t v).eff.remoteDeletes ≠ [] →
      (deletionBranch ds b t v).ret = .error e
        ∧ (deletionBranch ds b t v).eff.finalizerRemoveCalls = 0) := by
  unfold deletionBranch deletionAfterVolume deletionFinish
  repeat' split
  all_goals try simp_all
  all_goals repeat' split
  all_goals simp_all

/-- Every target-stage outcome either records no deferred comparison or is
exactly the non-deletion phase. -/
theorem targetStage_shape (ds : DS) (b : Backup) :
    (targetStage ds b).deferCompare = none
  ∨ targetStage ds b = nonDeletionPhase ds b := by
  unfold targetStage
  repeat' split
  any_goals (left; simp)
  · left
    exact (deletionBranch_eff ds b _ _).1
  · right
    rfl

/-- The target stage never issues the ownership-claim write. -/
theorem targetStage_claimWrites (ds : DS) (b : Backup) :
    (targetStage ds b).eff.claimWrites = 0 := by
  unfold targetStage
  repeat' split
  any_goals simp
  · exact (deletionBranch_eff ds b _ _).2.1
  · exact (nonDeletionPhase_eff ds b).1

/-- The target stage satisfies the delete-failure/finalizer relationship. -/
theorem targetStage_delete_failure (ds : DS) (b : Backup) :
    ((targetStage ds b).eff.finalizerRemoveCalls ≠ 0 →
      (targetStage ds b).eff.remoteDeletes = [] ∨ ds.deleteBackup = none)
  ∧ (∀ e, ds.deleteBackup = some e →
      (targetStage ds b).eff.remoteDeletes ≠ [] →
      (targetStage ds b).ret = .error e
        ∧ (targetStage ds b).eff.finalizerRemoveCalls = 0) := by
  unfold targetStage
  repeat' split
  any_goals simp
  · exact deletionBranch_delete_failure ds b _ _
  · have hn := nonDeletionPhase_eff ds b
    constructor
    · intro hf
      exact absurd hn.2.2.1 hf
    · intro e he hrd
      exact absurd hn.2.1 hrd

/-- When the target stage records a deferred comparison, it came from the
non-deletion phase: the first component is the phase-entry snapshot and the
deferred write/enqueue counters follow the comparison. -/
theorem targetStage_defer (ds : DS) (b : Backup) (p q : SnapshotBackupStatus)
    (h : (targetStage ds b).deferCompare = some (p, q)) :
    p = b.status ∧ (targetStage ds b).ret = .ok ()
  ∧ (targetStage ds b).eff.deferredWrites = (if p = q then 0 else 1)
  ∧ (p ≠ q → ds.updateBackupStatusDeferred = some .conflict →
      (targetStage ds b).eff.enqueues = 1) := by
  rcases targetStage_shape ds b with hs | hs
  · rw [hs] at h
    exact absurd h (by simp)
  · rw [hs] at h ⊢
    exact nonDeletionPhase_defer ds b p q h

/-- Every `reconcile` invocation is an effect-free exit, a claim-stage exit
carrying only the claim write, or a target-stage result with `n` claim writes
added on top. -/
theorem reconcile_shape (ds : DS) (cid : String) :
    (∃ r, reconcile ds cid = { ret := r })
  ∨ (∃ r, reconcile ds cid = { ret := r, eff := { claimWrites := 1 } })
  ∨ (∃ n b, reconcile ds cid = addClaimWrites n (targetStage ds b)) := by
  unfold reconcile claimStage
  repeat' split
  · exact Or.inl ⟨_, rfl⟩
  · exact Or.inl ⟨_, rfl⟩
  · exact Or.inl ⟨_, rfl⟩
  · exact Or.inl ⟨_, rfl⟩
  · exact Or.inr (Or.inr ⟨0, _, rfl⟩)
  · exact Or.inr (Or.inl ⟨_, rfl⟩)
  · exact Or.inr (Or.inl ⟨_, rfl⟩)
  · exact Or.inr (Or.inr ⟨1, _, rfl⟩)
  · exact Or.inl ⟨_, rfl⟩

/-- The entry-selection scan's accumulator starts non-`none` and can never
become `none`. -/
theorem findEntry_aux (snap : String) (l : List Engine) :
    ∀ acc : Option BackupStatusEntry, acc ≠ none →
      l.foldl (fun acc e =>
        match e.statusBackupStatus.find? (fun s => s.snapshotName == snap) with
        | some s => some s
        | none => acc) acc ≠ none := by
  induction l with
  | nil =>
    intro acc h
    simpa using h
  | cons e tl ih =>
    intro acc h
    rw [List.foldl_cons]
    apply ih
    cases hf : e.statusBackupStatus.find? (fun s => s.snapshotName == snap) with
    | none => simpa [hf] using h
    | some s => simp [hf]

/-! ### Claim theorems -/

/-- **C1**: the claim says a poll iteration whose engine backup-status lists
contain no entry for the requested snapshot sets the state to `Unknown` and
stops polling.  The code cannot do this: `bks` is initialized to
`&longhorn.BackupStatus{}` — a non-`nil` pointer — so the `bks == nil` branch
is dead (first conjunct), and on a concrete trace whose two polls contain no
matching entry the monitor instead treats the zero entry as 0%% progress and
keeps polling (second conjunct: after both polls are consumed the task is
still polling, it has not exited with `Unknown`). -/
theorem c1_monitor_missing_entry_keeps_polling :
    (∀ (snap : String) (engines : List Engine),
      findBackupStatusEntry snap engines ≠ none)
  ∧ backupMonitorTask envC1 "snap-1" = .stillPolling := by
  constructor
  · intro snap engines
    unfold findBackupStatusEntry
    exact findEntry_aux snap engines _ (by simp)
  · rfl

/-- **C2**: whenever the deletion branch issues the remote delete and it
fails, `reconcile` returns that error and does not remove the finalizer; and
the finalizer-removal call is reached only if no remote delete was issued or
the delete succeeded. -/
theorem c2_remote_delete_failure_blocks_finalizer (ds : DS) (cid : String) :
    ((reconcile ds cid).eff.finalizerRemoveCalls ≠ 0 →
      (reconcile ds cid).eff.remoteDeletes = [] ∨ ds.deleteBackup = none)
  ∧ (∀ e, ds.deleteBackup = some e →
      (reconcile ds cid).eff.remoteDeletes ≠ [] →
      (reconcile ds cid).ret = .error e
        ∧ (reconcile ds cid).eff.finalizerRemoveCalls = 0) := by
  rcases reconcile_shape ds cid with ⟨r, hr⟩ | ⟨r, hr⟩ | ⟨n, b, hr⟩
  · rw [hr]
    simp
  · rw [hr]
    simp
  · have h := targetStage_delete_failure ds b
    constructor
    · intro hf
      have hf2 : (targetStage ds b).eff.finalizerRemoveCalls ≠ 0 := by
        simpa [hr, addClaimWrites] using hf
      simpa [hr, addClaimWrites] using h.1 hf2
    · intro e he hrd
      have hrd2 : (targetStage ds b).eff.remoteDeletes ≠ [] := by
        simpa [hr, addClaimWrites] using hrd
      have h2 := h.2 e he hrd2
      exact ⟨by simpa [hr, addClaimWrites] using h2.1,
             by simpa [hr, addClaimWrites] using h2.2⟩

/-- **C2 witness**: in `dsC2` the deletion branch issues the remote delete,
it fails with code 3, the invocation returns that error and the finalizer is
kept. -/
theorem c2_witness :
    (reconcile dsC2 "n1").ret = .error (.other 3)
  ∧ (reconcile dsC2 "n1").eff.finalizerRemoveCalls = 0 :=
  (c2_remote_delete_failure_blocks_finalizer dsC2 "n1").2 (.other 3) rfl
    (by decide)

/-- **C3 counterexample**: the backup `backupDelNoURL` under deletion never
acquired a remote URL (`Status.URL = ""`), yet `reconcile` issues a remote
delete — the guard tests the backup target's URL, not the backup's. -/
theorem c3_counterexample :
    backupDelNoURL.status.url = ""
  ∧ dsC3.getBackup = .ok backupDelNoURL
  ∧ (reconcile dsC3 "n1").eff.remoteDeletes
      = ["s3://bucket?volume=v1&backup=b1"] :=
  ⟨rfl, rfl, rfl⟩

/-- **C3 amended**: in the deletion branch, when the default backup target
has no URL configured (or the volume record is absent or mid-deletion — here
the target-URL side), no remote-delete call is issued and the finalizer is
still cleared, the invocation returning the finalizer-removal outcome. -/
theorem c3_no_target_url_skips_delete (ds : DS) (cid : String) (b b1 : Backup)
    (img : String) (t : BackupTarget) (volName : String)
    (hb : ds.getBackup = .ok b)
    (hs : ds.getSettingDefaultEngineImage = .ok img)
    (hr : isResponsibleFor ds cid b img = .ok true)
    (hclaim : b.status.ownerID = cid ∧ b1 = b
        ∨ b.status.ownerID ≠ cid ∧ ds.updateBackupStatusClaim = .ok b1)
    (ht : ds.getBackupTargetRO = .ok t)
    (hlbl : getBackupVolumeName b1 = some volName)
    (hdel : b1.deletionTimestamp ≠ 0)
    (hvol : ds.getBackupVolume = .error .notFound
        ∨ ∃ bv, ds.getBackupVolume = .ok bv)
    (hurl : t.specBackupTargetURL = "") :
    (reconcile ds cid).eff.remoteDeletes = []
  ∧ (reconcile ds cid).eff.finalizerRemoveCalls = 1
  ∧ (reconcile ds cid).ret = ds.removeFinalizerForBackup := by
  have hrec : reconcile ds cid = claimStage ds cid b := by
    unfold reconcile
    simp [hb, hs, hr]
  have hcs : ∃ n, reconcile ds cid = addClaimWrites n (targetStage ds b1) := by
    rcases hclaim with ⟨ho, hb1⟩ | ⟨ho, hcl⟩
    · subst hb1
      refine ⟨0, ?_⟩
      rw [hrec]
      unfold claimStage
      rw [if_pos (by simp [ho])]
      rfl
    · refine ⟨1, ?_⟩
      rw [hrec]
      unfold claimStage
      rw [if_neg (by simp [ho]), hcl]
  obtain ⟨n, hn⟩ := hcs
  have htg : targetStage ds b1 = deletionBranch ds b1 t volName := by
    unfold targetStage
    rw [ht, hlbl]
    simp [Time.IsZero, hdel]
  have hdb : (deletionBranch ds b1 t volName).eff.remoteDeletes = []
      ∧ (deletionBranch ds b1 t volName).eff.finalizerRemoveCalls = 1
      ∧ (deletionBranch ds b1 t volName).ret = ds.removeFinalizerForBackup := by
    rcases hvol with hv | ⟨bv, hv⟩
    · unfold deletionBranch deletionAfterVolume deletionFinish
      rw [hv]
      simp [hurl]
    · unfold deletionBranch deletionAfterVolume deletionFinish
      rw [hv]
      simp only [hurl]
      split
      · simp_all
      · split <;> simp
  rw [hn, htg]
  exact ⟨by simp [addClaimWrites, hdb.1],
         by simp [addClaimWrites, hdb.2.1],
         by simp [addClaimWrites, hdb.2.2]⟩

/-- **C3 amended witness**: in `dsC3w` (no backup-target URL) the deletion of
`backupDelNoURL` issues no remote delete and clears the finalizer. -/
theorem c3_witness :
    (reconcile dsC3w "n1").eff.remoteDeletes = []
  ∧ (reconcile dsC3w "n1").eff.finalizerRemoveCalls = 1
  ∧ (reconcile dsC3w "n1").ret = dsC3w.removeFinalizerForBackup :=
  c3_no_target_url_skips_delete dsC3w "n1" backupDelNoURL backupDelNoURL
    "ei-default" target0 "v1" rfl rfl rfl (Or.inl ⟨rfl, rfl⟩) rfl rfl
    (by decide) (Or.inr ⟨bvol1, rfl⟩) rfl

/-- **C4 counterexample**: controller `n1` claims `backupSynced` (recorded
owner `n-old`) and then takes the sync-skip path: the invocation succeeds and
the end-of-invocation status (second component of the deferred comparison)
differs from the pre-invocation status — the owner changed — yet the deferred
step issues zero `UpdateBackupStatus` calls, not the exactly-one the claim
requires for a changed status; the snapshot the deferred step compares
against is taken after the ownership claim, not pre-invocation. -/
theorem c4_counterexample :
    dsC4.getBackup = .ok backupSynced
  ∧ (reconcile dsC4 "n1").ret = .ok ()
  ∧ (reconcile dsC4 "n1").deferCompare
      = some (backupSyncedClaimed.status, backupSyncedClaimed.status)
  ∧ backupSyncedClaimed.status ≠ backupSynced.status
  ∧ (reconcile dsC4 "n1").eff.deferredWrites = 0 :=
  ⟨rfl, rfl, rfl, by decide, rfl⟩

/-- **C4 amended**: the deferred step compares the status snapshot taken at
the start of the non-deletion phase (after the ownership claim) — not the
pre-invocation value — with the end-of-invocation status.  Whenever that
comparison ran, the invocation returns success, zero deferred
`UpdateBackupStatus` calls are issued when the two are equal and exactly one
when they differ, and an optimistic-concurrency conflict from that write
re-enqueues the resource key while the invocation still succeeds. -/
theorem c4_deferred_writeback (ds : DS) (cid : String)
    (p q : SnapshotBackupStatus)
    (h : (reconcile ds cid).deferCompare = some (p, q)) :
    (reconcile ds cid).ret = .ok ()
  ∧ (reconcile ds cid).eff.deferredWrites = (if p = q then 0 else 1)
  ∧ (p ≠ q → ds.updateBackupStatusDeferred = some .conflict →
      (reconcile ds cid).eff.enqueues = 1) := by
  rcases reconcile_shape ds cid with ⟨r, hr⟩ | ⟨r, hr⟩ | ⟨n, b, hr⟩
  · rw [hr] at h
    exact absurd h (by simp)
  · rw [hr] at h
    exact absurd h (by simp)
  · rw [hr] at h ⊢
    have hd : (targetStage ds b).deferCompare = some (p, q) := by
      simpa [addClaimWrites] using h
    have hs := targetStage_defer ds b p q hd
    refine ⟨by simpa [addClaimWrites] using hs.2.1,
            by simpa [addClaimWrites] using hs.2.2.1, ?_⟩
    intro hne hconf
    simpa [addClaimWrites] using hs.2.2.2 hne hconf

/-- **C4 amended witness**: in `dsC4w` the sync branch mutates the status,
the deferred write is issued once, hits a conflict, and the key is
re-enqueued while the invocation succeeds. -/
theorem c4_witness :
    (reconcile dsC4w "n1").ret = .ok ()
  ∧ (reconcile dsC4w "n1").eff.deferredWrites = 1
  ∧ (reconcile dsC4w "n1").eff.enqueues = 1 := by
  have h := c4_deferred_writeback dsC4w "n1" backupNeedSync.status
    ((applyBackupInfo backupNeedSync info1 100).status) rfl
  refine ⟨h.1, ?_, h.2.2 (by decide) rfl⟩
  have h2 := h.2.1
  rwa [if_neg (by decide)] at h2

/-- **C5**: when the node-list and capability checks themselves do not error,
`isResponsibleFor` returns, with nil error, exactly the disjunction of the
three signals: preferred (the tie-break rule elects this replica AND its node
offers the default engine-image capability), continuity (its node offers the
capability AND the recorded owner is this controller), takeover (its node
offers the capability AND the recorded owner's node does not). -/
theorem c5_responsibility_disjunction (ds : DS) (cid : String) (b : Backup)
    (img : String)
    (h1 : ds.listReadyNodesErr = none)
    (h2 : ds.checkEngineImageReadinessErr b.status.ownerID = none)
    (h3 : ds.checkEngineImageReadinessErr cid = none) :
    isResponsibleFor ds cid b img = .ok
      ((ds.readyNodesWithReadyEI.contains cid && ds.tieBreakResponsible)
       || (ds.readyNodesWithReadyEI.contains cid && (cid == b.status.ownerID))
       || (ds.readyNodesWithReadyEI.contains cid
            && !(ds.readyNodesWithReadyEI.contains b.status.ownerID))) := by
  unfold isResponsibleFor checkEngineImageReadiness
  rw [h1, h2, h3]
  by_cases hn : ds.readyNodesWithReadyEI.length = 0
  · have hrn : ds.readyNodesWithReadyEI = [] := List.length_eq_zero.mp hn
    simp [hn, hrn]
  · simp [hn]

/-- **C5 witness**: on the baseline cluster, controller `n1` is responsible
for `backup0` (preferred and continuity both hold). -/
theorem c5_witness :
    isResponsibleFor ds0 "n1" backup0 "ei-default" = .ok true :=
  Eq.trans (c5_responsibility_disjunction ds0 "n1" backup0 "ei-default"
    rfl rfl rfl) (by decide)

/-- **C6**: when no ready node carries the ready default engine image,
`isResponsibleFor` returns `(false, nil)` and `reconcile` returns success
with every effect counter zero — no ownership claim, no status update, no
finalizer change, no remote call. -/
theorem c6_no_capable_node_no_writes (ds : DS) (cid : String) (b : Backup)
    (img : String)
    (hb : ds.getBackup = .ok b)
    (hs : ds.getSettingDefaultEngineImage = .ok img)
    (hl : ds.listReadyNodesErr = none)
    (hn : ds.readyNodesWithReadyEI = []) :
    isResponsibleFor ds cid b img = .ok false
  ∧ reconcile ds cid = { ret := .ok () } := by
  have hresp : isResponsibleFor ds cid b img = .ok false := by
    unfold isResponsibleFor
    rw [hl]
    simp [hn]
  refine ⟨hresp, ?_⟩
  unfold reconcile
  simp [hb, hs, hresp]

/-- **C6 witness**: in `dsC6` (empty ready-node list) the responsibility
check yields `(false, nil)` and `reconcile` is a success with zero writes. -/
theorem c6_witness :
    isResponsibleFor dsC6 "n1" backup0 "ei-default" = .ok false
  ∧ reconcile dsC6 "n1" = { ret := .ok () } :=
  c6_no_capable_node_no_writes dsC6 "n1" backup0 "ei-default" rfl rfl rfl rfl

/-- When the fetch, setting and responsibility checks succeed and the
ownership claim (when needed) succeeds returning `b1`, `reconcile` is the
target stage on `b1` with some number of claim writes added on top. -/
theorem reconcile_enters_targetStage (ds : DS) (cid : String) (b b1 : Backup)
    (img : String)
    (hb : ds.getBackup = .ok b)
    (hs : ds.getSettingDefaultEngineImage = .ok img)
    (hr : isResponsibleFor ds cid b img = .ok true)
    (hclaim : b.status.ownerID = cid ∧ b1 = b
        ∨ b.status.ownerID ≠ cid ∧ ds.updateBackupStatusClaim = .ok b1) :
    ∃ n, reconcile ds cid = addClaimWrites n (targetStage ds b1) := by
  have hrec : reconcile ds cid = claimStage ds cid b := by
    unfold reconcile
    simp [hb, hs, hr]
  rcases hclaim with ⟨ho, hb1⟩ | ⟨ho, hcl⟩
  · subst hb1
    refine ⟨0, ?_⟩
    rw [hrec]
    unfold claimStage
    rw [if_pos (by simp [ho])]
    rfl
  · refine ⟨1, ?_⟩
    rw [hrec]
    unfold claimStage
    rw [if_neg (by simp [ho]), hcl]

/-- **C7**: the ownership-claim write is issued iff the recorded owner
differs from this controller (an already-owned resource never re-issues it);
an optimistic-concurrency conflict on this specific write aborts the
invocation successfully with no further effect, and any other error from it
is propagated. -/
theorem c7_ownership_claim (ds : DS) (cid : String) (b : Backup) (img : String)
    (hb : ds.getBackup = .ok b)
    (hs : ds.getSettingDefaultEngineImage = .ok img)
    (hr : isResponsibleFor ds cid b img = .ok true) :
    (b.status.ownerID = cid → (reconcile ds cid).eff.claimWrites = 0)
  ∧ (b.status.ownerID ≠ cid →
      (reconcile ds cid).eff.claimWrites = 1
      ∧ (ds.updateBackupStatusClaim = .error .conflict →
          reconcile ds cid = { ret := .ok (), eff := { claimWrites := 1 } })
      ∧ (∀ e, ds.updateBackupStatusClaim = .error e → e ≠ .conflict →
          (reconcile ds cid).ret = .error e)) := by
  have hrec : reconcile ds cid = claimStage ds cid b := by
    unfold reconcile
    simp [hb, hs, hr]
  rw [hrec]
  constructor
  · intro ho
    unfold claimStage
    rw [if_pos (by simp [ho])]
    exact targetStage_claimWrites ds b
  · intro ho
    unfold claimStage
    rw [if_neg (by simp [ho])]
    cases hcl : ds.updateBackupStatusClaim with
    | error e =>
      by_cases hc : e = DSError.conflict
      · subst hc
        simp [hcl]
      · simp [hcl, hc]
    | ok b1 =>
      simp [hcl, addClaimWrites, targetStage_claimWrites]

/-- **C7 witness**: in `dsC7` controller `n1` needs to claim `backupSynced`
(owner `n-old`), the claim write conflicts, and the invocation aborts
successfully having issued exactly that one write. -/
theorem c7_witness :
    reconcile dsC7 "n1" = { ret := .ok (), eff := { claimWrites := 1 } } :=
  ((c7_ownership_claim dsC7 "n1" backupSynced "ei-default" rfl rfl rfl).2
    (by decide)).2.1 rfl

/-- **C9**: a backup reaching the sync-skip check — fetched, responsible,
claimed, target present, volume label present, not under deletion, creation
branch not taken — whose last-synced time is non-zero and whose
sync-requested time is not strictly after it, makes `reconcile` return
success with no remote inspect query and no status mutation (the deferred
comparison sees identical snapshots and issues no write). -/
theorem c9_sync_skip (ds : DS) (cid : String) (b b1 : Backup) (img : String)
    (t : BackupTarget) (volName : String)
    (hb : ds.getBackup = .ok b)
    (hs : ds.getSettingDefaultEngineImage = .ok img)
    (hr : isResponsibleFor ds cid b img = .ok true)
    (hclaim : b.status.ownerID = cid ∧ b1 = b
        ∨ b.status.ownerID ≠ cid ∧ ds.updateBackupStatusClaim = .ok b1)
    (ht : ds.getBackupTargetRO = .ok t)
    (hlbl : getBackupVolumeName b1 = some volName)
    (hdel : b1.deletionTimestamp = 0)
    (hcreate : b1.spec.snapshotName = "" ∨ b1.status.state ≠ "")
    (hls : b1.status.lastSyncedAt ≠ 0)
    (hna : ¬ b1.status.lastSyncedAt < b1.spec.syncRequestedAt) :
    (reconcile ds cid).ret = .ok ()
  ∧ (reconcile ds cid).eff.inspectCalls = 0
  ∧ (reconcile ds cid).eff.deferredWrites = 0
  ∧ (reconcile ds cid).deferCompare = some (b1.status, b1.status) := by
  obtain ⟨n, hn⟩ :=
    reconcile_enters_targetStage ds cid b b1 img hb hs hr hclaim
  have htg : targetStage ds b1 = nonDeletionPhase ds b1 := by
    unfold targetStage
    rw [ht, hlbl]
    simp [Time.IsZero, hdel]
  have hbody : nonDeletionBody ds b1 = { ret := .ok (), backup := b1 } := by
    unfold nonDeletionBody
    have hc : (b1.spec.snapshotName != "" && b1.status.state == "") = false := by
      rcases hcreate with h | h <;> simp [h]
    have hsk : (!(Time.IsZero b1.status.lastSyncedAt)
        && !(Time.After b1.spec.syncRequestedAt b1.status.lastSyncedAt))
          = true := by
      have hblt : Nat.blt b1.status.lastSyncedAt b1.spec.syncRequestedAt
          = false := by
        cases hblt2 : Nat.blt b1.status.lastSyncedAt b1.spec.syncRequestedAt with
        | false => rfl
        | true => exact absurd (Nat.blt_eq ▸ hblt2) hna
      simp [Time.IsZero, Time.After, hls, hblt]
    simp [hc, hsk]
  have hphase : nonDeletionPhase ds b1
      = { ret := .ok (), deferCompare := some (b1.status, b1.status) } := by
    unfold nonDeletionPhase
    rw [hbody]
    unfold runDeferred
    simp
  rw [hn, htg, hphase]
  exact ⟨by simp [addClaimWrites], by simp [addClaimWrites],
         by simp [addClaimWrites], by simp [addClaimWrites]⟩

/-- **C9 witness**: `backupSynced9` (synced at 5, sync requested at 3, owned
by `n1`) is skipped: success, no inspect query, no deferred write. -/
theorem c9_witness :
    (reconcile dsC9 "n1").ret = .ok ()
  ∧ (reconcile dsC9 "n1").eff.inspectCalls = 0
  ∧ (reconcile dsC9 "n1").eff.deferredWrites = 0 := by
  have h := c9_sync_skip dsC9 "n1" backupSynced9 backupSynced9 "ei-default"
    target0 "v1" rfl rfl rfl (Or.inl ⟨rfl, rfl⟩) rfl rfl rfl
    (Or.inr (by decide)) (by decide) (by decide)
  exact ⟨h.1, h.2.1, h.2.2.1⟩

/-- **C10**: when `isResponsibleFor` itself returns an error, `reconcile`
swallows it and returns success with zero effects — the error never reaches
the dispatch loop, so a failed responsibility determination triggers no
retry/backoff. -/
theorem c10_responsibility_error_swallowed (ds : DS) (cid : String)
    (b : Backup) (img : String) (e : DSError)
    (hb : ds.getBackup = .ok b)
    (hs : ds.getSettingDefaultEngineImage = .ok img)
    (hr : isResponsibleFor ds cid b img = .error e) :
    reconcile ds cid = { ret := .ok () } := by
  unfold reconcile
  simp [hb, hs, hr]

/-- **C10 witness**: in `dsC10` the node-list query fails; `reconcile`
returns success with zero effects. -/
theorem c10_witness : reconcile dsC10 "n1" = { ret := .ok () } :=
  c10_responsibility_error_swallowed dsC10 "n1" backup0 "ei-default"
    (.other 7) rfl rfl rfl

/-- Setting the `state` field is the identity exactly when the field already
has that value. -/
theorem status_set_state_eq (s : SnapshotBackupStatus) (st : String) :
    (s = { s with state := st }) ↔ s.state = st := by
  constructor
  · intro h
    have h2 := congrArg SnapshotBackupStatus.state h
    simpa using h2
  · intro h
    cases s
    simp_all

/-- Evaluation of the monitor write-back on a successful fresh fetch. -/
theorem monitorWriteBack_ok (fresh : Backup) (st : String)
    (updErr : Option DSError) :
    monitorWriteBack (.ok fresh) st updErr
      = (if fresh.status.state = st then {}
         else { written := some { fresh.status with state := st },
                loggedUpdateError := updErr.isSome && updErr != some .conflict }) := by
  simp only [monitorWriteBack]
  by_cases hst : fresh.status.state = st
  · rw [if_pos ((status_set_state_eq fresh.status st).mpr hst), if_pos hst]
  · rw [if_neg (fun hh => hst ((status_set_state_eq fresh.status st).mp hh)),
        if_neg hst]

/-- **C8**: on every exit path of the monitor task, the deferred write-back
is computed from the freshly fetched backup: a failed fetch issues no write;
otherwise only the `State` field is changed — every other status field keeps
the freshly fetched value — the write is issued exactly when the resulting
status differs from the fetched one, and an optimistic-concurrency conflict
from that write is dropped without even being logged. -/
theorem c8_monitor_writeback_frame (env : MonitorEnv) (snap : String)
    (st : String) (wakes : WakeEffects) (wb : WriteBackResult)
    (h : backupMonitorTask env snap = .exited st wakes wb) :
    wb = monitorWriteBack env.refetch st env.updateStatusErr
  ∧ (∀ e, env.refetch = .error e → wb.written = none)
  ∧ (∀ fresh, env.refetch = .ok fresh →
      ((fresh.status.state = st → wb.written = none)
       ∧ (fresh.status.state ≠ st →
           wb.written = some { fresh.status with state := st })
       ∧ (∀ s, wb.written = some s →
           s.state = st
           ∧ s.ownerID = fresh.status.ownerID
           ∧ s.url = fresh.status.url
           ∧ s.snapshotName = fresh.status.snapshotName
           ∧ s.snapshotCreatedAt = fresh.status.snapshotCreatedAt
           ∧ s.backupCreatedAt = fresh.status.backupCreatedAt
           ∧ s.size = fresh.status.size
           ∧ s.labels = fresh.status.labels
           ∧ s.messages = fresh.status.messages
           ∧ s.volumeName = fresh.status.volumeName
           ∧ s.volumeSize = fresh.status.volumeSize
           ∧ s.volumeCreated = fresh.status.volumeCreated
           ∧ s.volumeBackingImageName = fresh.status.volumeBackingImageName
           ∧ s.lastSyncedAt = fresh.status.lastSyncedAt)
       ∧ (env.updateStatusErr = some .conflict →
           wb.loggedUpdateError = false))) := by
  have hwb : wb = monitorWriteBack env.refetch st env.updateStatusErr := by
    unfold backupMonitorTask at h
    cases hsb : env.snapshotBackupErr with
    | some e =>
      rw [hsb] at h
      injection h with h1 h2 h3
      subst h1
      exact h3.symm
    | none =>
      rw [hsb] at h
      cases hl : monitorLoop env snap env.polls with
      | fuelOut =>
        rw [hl] at h
        simp at h
      | stopped st2 w2 =>
        rw [hl] at h
        injection h with h1 h2 h3
        subst h1
        exact h3.symm
  subst hwb
  refine ⟨rfl, ?_, ?_⟩
  · intro e he
    simp [monitorWriteBack, he]
  · intro fresh hf
    rw [hf, monitorWriteBack_ok]
    by_cases hst : fresh.status.state = st
    · rw [if_pos hst]
      refine ⟨fun _ => rfl, fun hne => absurd hst hne, ?_, fun _ => rfl⟩
      intro s hsw
      simp at hsw
    · rw [if_neg hst]
      refine ⟨fun hcontra => absurd hcontra hst, fun _ => rfl, ?_, ?_⟩
      · intro s hsw
        simp only [Option.some.injEq] at hsw
        subst hsw
        simp
      · intro hconf
        rw [hconf]
        simp

/-- **C8 witness**: in `envC8` the transfer start fails, the task exits with
state `Error`; the write-back keeps every fetched field except `State` and
the conflict from the status write is dropped without logging. -/
theorem c8_witness :
    (monitorWriteBack envC8.refetch BackupStateError envC8.updateStatusErr).written
      = some { backupInProg.status with state := BackupStateError }
  ∧ (monitorWriteBack envC8.refetch BackupStateError
      envC8.updateStatusErr).loggedUpdateError = false := by
  have h := c8_monitor_writeback_frame envC8 "snap-1" BackupStateError {}
    (monitorWriteBack envC8.refetch BackupStateError envC8.updateStatusErr) rfl
  have h3 := h.2.2 backupInProg rfl
  exact ⟨h3.2.1 (by decide), h3.2.2.2 rfl⟩
